import Mathlib

/-!
# Qwen image-generation proxy endpoints (`pb_data/hooks/extend.go`)

A shallow embedding of the two handlers registered by `RegisterQwenEndpoints`:

* `POST /api/qwen/generate` (`postGenerate`)
* `GET /api/qwen/task/:taskId` (`getTask`)

The handlers are sequential code around library calls.  The process
environment (`os.Getenv`) and the outcome of `c.Bind` / `c.Param` are inputs;
the library calls whose outcome the handlers branch on (`json.Marshal`,
`http.NewRequest`, `client.Do`, `io.ReadAll`, `json.Unmarshal`) are the fields
of `Lib`.  A handler run yields the reply written with `c.JSON` together with
the list of requests handed to `client.Do`, in order.
-/

set_option autoImplicit false

namespace RegisterQwenEndpoints

/-! ## Data model -/

/-- JSON documents: the values the handlers marshal and relay.  The handlers
build no number themselves; `num` only occurs in relayed documents. -/
inductive Json where
  | null
  | bool (b : Bool)
  | num (n : Int)
  | str (s : String)
  | arr (items : List Json)
  | obj (fields : List (String × Json))

/-- Member `key` of a JSON object (first binding), `none` for anything else. -/
def Json.field (key : String) : Json → Option Json
  | Json.obj fields => (fields.find? (fun kv => kv.1 == key)).map Prod.snd
  | _ => none

/-- Element `i` of a JSON array, `none` for anything else. -/
def Json.item (i : Nat) : Json → Option Json
  | Json.arr items => items.get? i
  | _ => none

/-- The anonymous struct `req` of the POST handler, as filled in by `c.Bind`;
a member absent from the body keeps Go's zero value (`""`, `false`). -/
structure GenerateRequest where
  Prompt : String
  Size : String
  PromptExtend : Bool
  Watermark : Bool

/-- An outbound `*http.Request`, recorded by what the handler built it from:
the `method` and `url` arguments of `http.NewRequest` (`url` is the string as
the handler wrote it, not yet parsed), the body (`none` for a nil body,
otherwise the JSON document whose encoding is sent) and the headers set on it,
in the order of the `Header.Set` calls.  The URL the request carries once
`http.NewRequest` has parsed `url` is `HttpRequest.URL` below. -/
structure HttpRequest where
  method : String
  url : String
  body : Option Json
  header : List (String × String)

/-- An upstream `*http.Response` as the handlers use it: `resp.StatusCode`
and what `io.ReadAll(resp.Body)` gives (`none` when reading fails). -/
structure HttpResponse where
  StatusCode : Int
  Body : Option String

/-- The library calls the handlers branch on.
* `marshalOk v`: `json.Marshal(v)` returns no error;
* `newRequestOk method url`: `http.NewRequest(method, url, _)` returns no error;
* `parseURL url`: the URL carried by the request that `http.NewRequest` builds
  from the string `url`, as `httpReq.URL.String()` prints it.  `net/url` parses
  the string and re-encodes it, so the result need not be `url` itself (a space
  in the path comes out as `%20`);
* `clientDo r`: `client.Do(r)`, `none` on a transport-level error;
* `unmarshal body`: `json.Unmarshal(body, &dashscopeResp)`, `none` when it
  returns an error, otherwise the document that `c.JSON` writes for
  `dashscopeResp` afterwards: an object, or `Json.null` for the nil map that
  the body `null` leaves. -/
structure Lib where
  marshalOk : Json → Bool
  newRequestOk : String → String → Bool
  parseURL : String → String
  clientDo : HttpRequest → Option HttpResponse
  unmarshal : String → Option Json

/-- The URL an outbound request carries (`httpReq.URL`): what `http.NewRequest`
parsed from the string it was given. -/
def HttpRequest.URL (lib : Lib) (r : HttpRequest) : String :=
  lib.parseURL r.url

/-- What `c.JSON(status, body)` writes to the caller. -/
structure Reply where
  status : Int
  body : Json

/-- A handler run: the reply to the caller and the outbound calls made. -/
structure Outcome where
  reply : Reply
  calls : List HttpRequest

/-! ## The handlers -/

/-- The value `map[string]string{"error": msg}`. -/
def errorBody (msg : String) : Json :=
  Json.obj [("error", Json.str msg)]

/-- `Header.Set(key, value)`: replaces any value already set for `key`.  Keys
are kept as the source writes them (Go stores them in canonical MIME form,
which matters for none of the keys compared here). -/
def headerSet (h : List (String × String)) (key value : String) : List (String × String) :=
  h.filter (fun kv => kv.1 != key) ++ [(key, value)]

/-- Lines 50-54 and 139-143: the base URL chosen from `DASHSCOPE_REGION`. -/
def baseURL (region : String) : String :=
  if region = "singapore" then "https://dashscope-intl.aliyuncs.com/api/v1"
  else "https://dashscope.aliyuncs.com/api/v1"

/-- Lines 57-74: the map `dashscopeReq`, built from `req` after defaulting. -/
def dashscopeReq (req : GenerateRequest) : Json :=
  Json.obj
    [ ("model", Json.str "qwen-image-plus"),
      ("input", Json.obj
        [ ("messages", Json.arr
            [ Json.obj
                [ ("role", Json.str "user"),
                  ("content", Json.arr [ Json.obj [("text", Json.str req.Prompt)] ]) ] ]) ]),
      ("parameters", Json.obj
        [ ("size", Json.str req.Size),
          ("prompt_extend", Json.bool req.PromptExtend),
          ("watermark", Json.bool req.Watermark) ]) ]

/-- Lines 38-40: `if req.Size == "" { req.Size = "1328*1328" }`. -/
def setDefaults (req : GenerateRequest) : GenerateRequest :=
  if req.Size = "" then { req with Size := "1328*1328" } else req

/-- The handler of `POST /api/qwen/generate` (lines 20-121).  `bind` is the
outcome of `c.Bind(&req)` (`none` when it returns an error); `apiKey` and
`region` are what `os.Getenv` returns. -/
def postGenerate (lib : Lib) (apiKey region : String) (bind : Option GenerateRequest) :
    Outcome :=
  match bind with
  | none => ⟨⟨400, errorBody "Invalid request body"⟩, []⟩
  | some req0 =>
    if req0.Prompt = "" then ⟨⟨400, errorBody "Prompt is required"⟩, []⟩
    else
      let req := setDefaults req0
      if apiKey = "" then ⟨⟨500, errorBody "DASHSCOPE_API_KEY not configured"⟩, []⟩
      else
        let payload := dashscopeReq req
        if lib.marshalOk payload = false then
          ⟨⟨500, errorBody "Failed to marshal request"⟩, []⟩
        else
          let url := baseURL region ++ "/services/aigc/multimodal-generation/generation"
          if lib.newRequestOk "POST" url = false then
            ⟨⟨500, errorBody "Failed to create request"⟩, []⟩
          else
            let h0 : List (String × String) := []
            let h1 := headerSet h0 "Content-Type" "application/json"
            let h2 := headerSet h1 "Authorization" ("Bearer " ++ apiKey)
            let h3 := headerSet h2 "X-DashScope-Async" "enable"
            let httpReq : HttpRequest := ⟨"POST", url, some payload, h3⟩
            match lib.clientDo httpReq with
            | none => ⟨⟨500, errorBody "Failed to call DashScope API"⟩, [httpReq]⟩
            | some resp =>
              match resp.Body with
              | none => ⟨⟨500, errorBody "Failed to read response"⟩, [httpReq]⟩
              | some body =>
                match lib.unmarshal body with
                | none => ⟨⟨500, errorBody "Failed to parse response"⟩, [httpReq]⟩
                | some dashscopeResp =>
                  let statusCode := resp.StatusCode
                  if statusCode ≥ 400 then ⟨⟨statusCode, dashscopeResp⟩, [httpReq]⟩
                  else ⟨⟨200, dashscopeResp⟩, [httpReq]⟩

/-- The handler of `GET /api/qwen/task/:taskId` (lines 124-183).  `taskId` is
`c.Param("taskId")`; `apiKey` and `region` are what `os.Getenv` returns. -/
def getTask (lib : Lib) (apiKey region : String) (taskId : String) : Outcome :=
  if taskId = "" then ⟨⟨400, errorBody "Task ID is required"⟩, []⟩
  else
    if apiKey = "" then ⟨⟨500, errorBody "DASHSCOPE_API_KEY not configured"⟩, []⟩
    else
      let url := baseURL region ++ "/tasks/" ++ taskId
      if lib.newRequestOk "GET" url = false then
        ⟨⟨500, errorBody "Failed to create request"⟩, []⟩
      else
        let h0 : List (String × String) := []
        let h1 := headerSet h0 "Authorization" ("Bearer " ++ apiKey)
        let httpReq : HttpRequest := ⟨"GET", url, none, h1⟩
        match lib.clientDo httpReq with
        | none => ⟨⟨500, errorBody "Failed to call DashScope API"⟩, [httpReq]⟩
        | some resp =>
          match resp.Body with
          | none => ⟨⟨500, errorBody "Failed to read response"⟩, [httpReq]⟩
          | some body =>
            match lib.unmarshal body with
            | none => ⟨⟨500, errorBody "Failed to parse response"⟩, [httpReq]⟩
            | some dashscopeResp =>
              let statusCode := resp.StatusCode
              if statusCode ≥ 400 then ⟨⟨statusCode, dashscopeResp⟩, [httpReq]⟩
              else ⟨⟨200, dashscopeResp⟩, [httpReq]⟩

/-! ## Expected shapes

These definitions are not used by the handlers; the theorems below compare
the handlers with them. -/

/-- The outbound call of Submit as the interface describes it: a POST built
from the base URL followed by the generation path, the payload as body, and
the three headers. -/
def generateCall (apiKey region : String) (req : GenerateRequest) : HttpRequest :=
  { method := "POST"
    url := baseURL region ++ "/services/aigc/multimodal-generation/generation"
    body := some (dashscopeReq req)
    header := [("Content-Type", "application/json"),
               ("Authorization", "Bearer " ++ apiKey),
               ("X-DashScope-Async", "enable")] }

/-- The outbound call of QueryStatus as the interface describes it: a GET built
from the base URL followed by the task path, no body, the bearer header
only. -/
def taskCall (apiKey region taskId : String) : HttpRequest :=
  { method := "GET"
    url := baseURL region ++ "/tasks/" ++ taskId
    body := none
    header := [("Authorization", "Bearer " ++ apiKey)] }

/-- The member `input.messages[0].content[0].text` of a payload. -/
def promptText (doc : Json) : Option Json :=
  (((((doc.field "input").bind (Json.field "messages")).bind (Json.item 0)).bind
    (Json.field "content")).bind (Json.item 0)).bind (Json.field "text")

/-- The member `parameters.name` of a payload. -/
def parameter (name : String) (doc : Json) : Option Json :=
  (doc.field "parameters").bind (Json.field name)

/-- The tail the two handlers have in common, from `client.Do` on (lines
93-120 and 155-182), as a function of the request handed to `client.Do`:
transport failure, unreadable body and unparseable body give 500 with an
error object; otherwise the parsed body is sent back, with the upstream status
when that is at least 400 and with 200 otherwise. -/
def relay (lib : Lib) (httpReq : HttpRequest) : Outcome :=
  match lib.clientDo httpReq with
  | none => ⟨⟨500, errorBody "Failed to call DashScope API"⟩, [httpReq]⟩
  | some resp =>
    match resp.Body with
    | none => ⟨⟨500, errorBody "Failed to read response"⟩, [httpReq]⟩
    | some body =>
      match lib.unmarshal body with
      | none => ⟨⟨500, errorBody "Failed to parse response"⟩, [httpReq]⟩
      | some doc => ⟨⟨if resp.StatusCode ≥ 400 then resp.StatusCode else 200, doc⟩, [httpReq]⟩

/-! ## Sample library behaviours, used to evaluate the handlers -/

/-- An upstream that answers every call with `status` and the raw body `raw`,
which parses to `doc`; every other library call succeeds and URLs are left as
written. -/
def answering (status : Int) (raw : String) (doc : Json) : Lib where
  marshalOk := fun _ => true
  newRequestOk := fun _ _ => true
  parseURL := fun url => url
  clientDo := fun _ => some ⟨status, some raw⟩
  unmarshal := fun s => if s = raw then some doc else none

/-- An upstream that cannot be reached: `client.Do` fails for every call. -/
def offline : Lib where
  marshalOk := fun _ => true
  newRequestOk := fun _ _ => true
  parseURL := fun url => url
  clientDo := fun _ => none
  unmarshal := fun _ => none

/-- An upstream that answers every call with `status` and a body that
`json.Unmarshal` rejects; every other library call succeeds. -/
def garbled (status : Int) (raw : String) : Lib where
  marshalOk := fun _ => true
  newRequestOk := fun _ _ => true
  parseURL := fun url => url
  clientDo := fun _ => some ⟨status, some raw⟩
  unmarshal := fun _ => none

/-- A library whose `http.NewRequest` returns an error for a URL that contains
an ASCII control character (as `net/url` does when it parses the URL) and
accepts every other URL, re-encoding a space as `%20` and leaving every other
character as it is; the upstream cannot be reached. -/
def strict : Lib where
  marshalOk := fun _ => true
  newRequestOk := fun _ url => !(url.toList.any (fun c => c.toNat < 32 || c.toNat == 127))
  parseURL := fun url =>
    String.join (url.toList.map (fun c => if c = ' ' then "%20" else String.singleton c))
  clientDo := fun _ => none
  unmarshal := fun _ => none

/-! ## Basic facts -/

theorem relay_calls (lib : Lib) (httpReq : HttpRequest) : (relay lib httpReq).calls = [httpReq] := by
  unfold relay
  split
  · rfl
  · split
    · rfl
    · split <;> rfl

/-- The POST handler, once validation, configuration and request construction
have passed, is the result mapping applied to the expected call. -/
theorem postGenerate_reach (lib : Lib) (apiKey region : String) (req0 : GenerateRequest)
    (hp : req0.Prompt ≠ "") (hk : apiKey ≠ "")
    (hm : lib.marshalOk (dashscopeReq (setDefaults req0)) = true)
    (hn : lib.newRequestOk "POST"
      (baseURL region ++ "/services/aigc/multimodal-generation/generation") = true) :
    postGenerate lib apiKey region (some req0)
      = relay lib (generateCall apiKey region (setDefaults req0)) := by
  simp only [postGenerate, hp, hk, hm, hn, if_false, relay, generateCall, headerSet]
  simp
  split
  · rfl
  · split
    · rfl
    · split
      · rfl
      · split <;> rfl

/-- The GET handler, once validation, configuration and request construction
have passed, is the result mapping applied to the expected call. -/
theorem getTask_reach (lib : Lib) (apiKey region taskId : String)
    (ht : taskId ≠ "") (hk : apiKey ≠ "")
    (hn : lib.newRequestOk "GET" (baseURL region ++ "/tasks/" ++ taskId) = true) :
    getTask lib apiKey region taskId = relay lib (taskCall apiKey region taskId) := by
  simp only [getTask, ht, hk, hn, if_false, relay, taskCall, headerSet]
  simp
  split
  · rfl
  · split
    · rfl
    · split
      · rfl
      · split <;> rfl

/-- Every outbound call of the POST handler is the expected one, and it is
made only after validation, configuration and request construction passed. -/
theorem postGenerate_calls (lib : Lib) (apiKey region : String) (bind : Option GenerateRequest)
    (r : HttpRequest) (hr : r ∈ (postGenerate lib apiKey region bind).calls) :
    ∃ req0, bind = some req0 ∧ req0.Prompt ≠ "" ∧ apiKey ≠ "" ∧
      lib.marshalOk (dashscopeReq (setDefaults req0)) = true ∧
      lib.newRequestOk "POST" (baseURL region ++ "/services/aigc/multimodal-generation/generation") = true ∧
      r = generateCall apiKey region (setDefaults req0) := by
  cases bind with
  | none => simp [postGenerate] at hr
  | some req0 =>
    refine ⟨req0, rfl, ?_⟩
    by_cases hp : req0.Prompt = ""
    · simp [postGenerate, hp] at hr
    by_cases hk : apiKey = ""
    · simp [postGenerate, hp, hk] at hr
    by_cases hm : lib.marshalOk (dashscopeReq (setDefaults req0)) = true
    swap
    · simp [postGenerate, hp, hk, hm] at hr
    by_cases hn : lib.newRequestOk "POST"
        (baseURL region ++ "/services/aigc/multimodal-generation/generation") = true
    swap
    · simp [postGenerate, hp, hk, hm, hn] at hr
    rw [postGenerate_reach lib apiKey region req0 hp hk hm hn, relay_calls] at hr
    exact ⟨hp, hk, hm, hn, by simpa using hr⟩

/-- Every outbound call of the GET handler is the expected one, and it is
made only after validation, configuration and request construction passed. -/
theorem getTask_calls (lib : Lib) (apiKey region taskId : String)
    (r : HttpRequest) (hr : r ∈ (getTask lib apiKey region taskId).calls) :
    taskId ≠ "" ∧ apiKey ≠ "" ∧
      lib.newRequestOk "GET" (baseURL region ++ "/tasks/" ++ taskId) = true ∧
      r = taskCall apiKey region taskId := by
  by_cases ht : taskId = ""
  · simp [getTask, ht] at hr
  by_cases hk : apiKey = ""
  · simp [getTask, ht, hk] at hr
  by_cases hn : lib.newRequestOk "GET" (baseURL region ++ "/tasks/" ++ taskId) = true
  swap
  · simp [getTask, ht, hk, hn] at hr
  rw [getTask_reach lib apiKey region taskId ht hk hn, relay_calls] at hr
  exact ⟨ht, hk, hn, by simpa using hr⟩

/-- A run of the POST handler that made the call `r` is the common tail at `r`. -/
theorem postGenerate_of_call (lib : Lib) (apiKey region : String) (bind : Option GenerateRequest)
    (r : HttpRequest) (hr : r ∈ (postGenerate lib apiKey region bind).calls) :
    postGenerate lib apiKey region bind = relay lib r := by
  obtain ⟨req0, hb, hp, hk, hm, hn, hcall⟩ := postGenerate_calls lib apiKey region bind r hr
  rw [hb, hcall]
  exact postGenerate_reach lib apiKey region req0 hp hk hm hn

/-- A run of the GET handler that made the call `r` is the common tail at `r`. -/
theorem getTask_of_call (lib : Lib) (apiKey region taskId : String)
    (r : HttpRequest) (hr : r ∈ (getTask lib apiKey region taskId).calls) :
    getTask lib apiKey region taskId = relay lib r := by
  obtain ⟨ht, hk, hn, hcall⟩ := getTask_calls lib apiKey region taskId r hr
  rw [hcall]
  exact getTask_reach lib apiKey region taskId ht hk hn

theorem relay_transport (lib : Lib) (r : HttpRequest) (hd : lib.clientDo r = none) :
    (relay lib r).reply = ⟨500, errorBody "Failed to call DashScope API"⟩ := by
  simp [relay, hd]

theorem relay_unread (lib : Lib) (r : HttpRequest) (s : Int)
    (hd : lib.clientDo r = some ⟨s, none⟩) :
    (relay lib r).reply = ⟨500, errorBody "Failed to read response"⟩ := by
  simp [relay, hd]

theorem relay_unparsed (lib : Lib) (r : HttpRequest) (s : Int) (raw : String)
    (hd : lib.clientDo r = some ⟨s, some raw⟩) (hu : lib.unmarshal raw = none) :
    (relay lib r).reply = ⟨500, errorBody "Failed to parse response"⟩ := by
  simp [relay, hd, hu]

theorem relay_parsed (lib : Lib) (r : HttpRequest) (s : Int) (raw : String) (b : Json)
    (hd : lib.clientDo r = some ⟨s, some raw⟩) (hu : lib.unmarshal raw = some b) :
    (relay lib r).reply = ⟨if s ≥ 400 then s else 200, b⟩ := by
  simp [relay, hd, hu]

/-- The common tail either answers 500 with an error object or sends back a
body that parsed. -/
theorem relay_cases (lib : Lib) (r : HttpRequest) :
    (∃ msg, (relay lib r).reply = ⟨500, errorBody msg⟩)
    ∨ (∃ s raw b, lib.clientDo r = some ⟨s, some raw⟩ ∧ lib.unmarshal raw = some b
        ∧ (relay lib r).reply = ⟨if s ≥ 400 then s else 200, b⟩) := by
  cases hd : lib.clientDo r with
  | none => exact Or.inl ⟨_, relay_transport lib r hd⟩
  | some resp =>
    obtain ⟨s, body⟩ := resp
    cases body with
    | none => exact Or.inl ⟨_, relay_unread lib r s hd⟩
    | some raw =>
      cases hu : lib.unmarshal raw with
      | none => exact Or.inl ⟨_, relay_unparsed lib r s raw hd hu⟩
      | some b => exact Or.inr ⟨s, raw, b, rfl, hu, relay_parsed lib r s raw b hd hu⟩

/-! ## Input validation and configuration -/

/-- C1: a Submit request whose prompt is empty is answered with status 400 and
the object carrying the "error" member "Prompt is required", whatever the size,
flags, API key, region and library behaviour, and no outbound call is made; a
body that fails to bind is answered the same way with "Invalid request body". -/
theorem postGenerate_empty_prompt (lib : Lib) (apiKey region size : String)
    (promptExtend watermark : Bool) :
    (postGenerate lib apiKey region (some ⟨"", size, promptExtend, watermark⟩)).reply.status = 400
    ∧ (postGenerate lib apiKey region (some ⟨"", size, promptExtend, watermark⟩)).reply.body
        = Json.obj [("error", Json.str "Prompt is required")]
    ∧ ((postGenerate lib apiKey region (some ⟨"", size, promptExtend, watermark⟩)).reply.body).field
        "error" = some (Json.str "Prompt is required")
    ∧ (postGenerate lib apiKey region (some ⟨"", size, promptExtend, watermark⟩)).calls = []
    ∧ (postGenerate lib apiKey region none).reply.status = 400
    ∧ (postGenerate lib apiKey region none).reply.body
        = Json.obj [("error", Json.str "Invalid request body")]
    ∧ (postGenerate lib apiKey region none).calls = [] := by
  refine ⟨rfl, rfl, rfl, rfl, rfl, rfl, rfl⟩

/-- C2: a QueryStatus request whose task identifier is empty is answered with
status 400 and the object carrying the "error" member "Task ID is required",
whatever the API key, region and library behaviour, and no outbound call is
made. -/
theorem getTask_empty_taskId (lib : Lib) (apiKey region : String) :
    (getTask lib apiKey region "").reply.status = 400
    ∧ (getTask lib apiKey region "").reply.body = Json.obj [("error", Json.str "Task ID is required")]
    ∧ ((getTask lib apiKey region "").reply.body).field "error"
        = some (Json.str "Task ID is required")
    ∧ (getTask lib apiKey region "").calls = [] := by
  refine ⟨rfl, rfl, rfl, rfl⟩

/-- C3, as stated, fails: with the API key unset, a Submit request with an
empty prompt, a Submit body that does not bind and a QueryStatus request with
an empty task identifier are answered with 400, not 500. -/
theorem unset_key_not_always_500 :
    (postGenerate offline "" "" (some ⟨"", "", false, false⟩)).reply.status = 400
    ∧ (postGenerate offline "" "" (some ⟨"", "", false, false⟩)).reply.status ≠ 500
    ∧ (postGenerate offline "" "" none).reply.status = 400
    ∧ (getTask offline "" "" "").reply.status = 400
    ∧ (getTask offline "" "" "").reply.status ≠ 500 := by
  decide

/-- C3, amended: with the API key unset, every Submit request that binds with
a non-empty prompt and every QueryStatus request with a non-empty task
identifier is answered with status 500 and the object carrying the "error"
member "DASHSCOPE_API_KEY not configured"; and no request at all, valid or
not, leads to an outbound call. -/
theorem unset_key_500 (lib : Lib) (region : String) (req : GenerateRequest) (taskId : String)
    (hp : req.Prompt ≠ "") (ht : taskId ≠ "") :
    (postGenerate lib "" region (some req)).reply
        = ⟨500, Json.obj [("error", Json.str "DASHSCOPE_API_KEY not configured")]⟩
    ∧ (getTask lib "" region taskId).reply
        = ⟨500, Json.obj [("error", Json.str "DASHSCOPE_API_KEY not configured")]⟩
    ∧ (∀ bind, (postGenerate lib "" region bind).calls = [])
    ∧ (∀ t, (getTask lib "" region t).calls = []) := by
  refine ⟨?_, ?_, ?_, ?_⟩
  · simp [postGenerate, hp, errorBody]
  · simp [getTask, ht, errorBody]
  · intro bind
    cases bind with
    | none => rfl
    | some r =>
      by_cases h : r.Prompt = "" <;> simp [postGenerate, h]
  · intro t
    by_cases h : t = "" <;> simp [getTask, h]

/-- The amended C3 at the prompt "a red fox" and the task identifier "task-123". -/
theorem unset_key_500_witness :
    (postGenerate offline "" "singapore" (some ⟨"a red fox", "", true, false⟩)).reply
        = ⟨500, Json.obj [("error", Json.str "DASHSCOPE_API_KEY not configured")]⟩
    ∧ (getTask offline "" "singapore" "task-123").reply
        = ⟨500, Json.obj [("error", Json.str "DASHSCOPE_API_KEY not configured")]⟩
    ∧ (∀ bind, (postGenerate offline "" "singapore" bind).calls = [])
    ∧ (∀ t, (getTask offline "" "singapore" t).calls = []) :=
  unset_key_500 offline "singapore" ⟨"a red fox", "", true, false⟩ "task-123"
    (by decide) (by decide)

/-- C10: validation comes before the configuration check.  With the API key
empty, Submit answers 400 "Prompt is required" for an empty prompt and 500
"DASHSCOPE_API_KEY not configured" for a non-empty one; QueryStatus answers
400 "Task ID is required" for an empty task identifier and 500
"DASHSCOPE_API_KEY not configured" otherwise; none of the four makes an
outbound call. -/
theorem validation_before_configuration (lib : Lib) (region size : String)
    (promptExtend watermark : Bool) (req : GenerateRequest) (taskId : String)
    (hp : req.Prompt ≠ "") (ht : taskId ≠ "") :
    postGenerate lib "" region (some ⟨"", size, promptExtend, watermark⟩)
        = ⟨⟨400, Json.obj [("error", Json.str "Prompt is required")]⟩, []⟩
    ∧ postGenerate lib "" region (some req)
        = ⟨⟨500, Json.obj [("error", Json.str "DASHSCOPE_API_KEY not configured")]⟩, []⟩
    ∧ getTask lib "" region ""
        = ⟨⟨400, Json.obj [("error", Json.str "Task ID is required")]⟩, []⟩
    ∧ getTask lib "" region taskId
        = ⟨⟨500, Json.obj [("error", Json.str "DASHSCOPE_API_KEY not configured")]⟩, []⟩ := by
  refine ⟨rfl, ?_, rfl, ?_⟩
  · simp [postGenerate, hp, errorBody]
  · simp [getTask, ht, errorBody]

/-- C10 at the prompt "a red fox" and the task identifier "task-123". -/
theorem validation_before_configuration_witness :
    postGenerate offline "" "" (some ⟨"", "512*512", true, true⟩)
        = ⟨⟨400, Json.obj [("error", Json.str "Prompt is required")]⟩, []⟩
    ∧ postGenerate offline "" "" (some ⟨"a red fox", "", false, false⟩)
        = ⟨⟨500, Json.obj [("error", Json.str "DASHSCOPE_API_KEY not configured")]⟩, []⟩
    ∧ getTask offline "" "" ""
        = ⟨⟨400, Json.obj [("error", Json.str "Task ID is required")]⟩, []⟩
    ∧ getTask offline "" "" "task-123"
        = ⟨⟨500, Json.obj [("error", Json.str "DASHSCOPE_API_KEY not configured")]⟩, []⟩ :=
  validation_before_configuration offline "" "512*512" true true
    ⟨"a red fox", "", false, false⟩ "task-123" (by decide) (by decide)

/-! ## Outbound requests -/

/-- C4: the base URL is the international one exactly when the region is
"singapore" and the default one for every other value, the empty one included;
every outbound call of Submit goes to the base URL followed by the generation
path and every outbound call of QueryStatus to the base URL followed by
"/tasks/" and the task identifier; and such a call is made whenever
validation, configuration and request construction pass. -/
theorem baseURL_selection (lib : Lib) (apiKey region : String) (req : GenerateRequest)
    (taskId : String) :
    (baseURL region = "https://dashscope-intl.aliyuncs.com/api/v1" ↔ region = "singapore")
    ∧ (region ≠ "singapore" → baseURL region = "https://dashscope.aliyuncs.com/api/v1")
    ∧ baseURL "" = "https://dashscope.aliyuncs.com/api/v1"
    ∧ (∀ bind, ∀ r ∈ (postGenerate lib apiKey region bind).calls,
        r.url = baseURL region ++ "/services/aigc/multimodal-generation/generation")
    ∧ (∀ r ∈ (getTask lib apiKey region taskId).calls,
        r.url = baseURL region ++ "/tasks/" ++ taskId)
    ∧ (req.Prompt ≠ "" → apiKey ≠ "" →
        lib.marshalOk (dashscopeReq (setDefaults req)) = true →
        lib.newRequestOk "POST"
          (baseURL region ++ "/services/aigc/multimodal-generation/generation") = true →
        (postGenerate lib apiKey region (some req)).calls.map HttpRequest.url
          = [baseURL region ++ "/services/aigc/multimodal-generation/generation"])
    ∧ (taskId ≠ "" → apiKey ≠ "" →
        lib.newRequestOk "GET" (baseURL region ++ "/tasks/" ++ taskId) = true →
        (getTask lib apiKey region taskId).calls.map HttpRequest.url
          = [baseURL region ++ "/tasks/" ++ taskId]) := by
  refine ⟨?_, ?_, rfl, ?_, ?_, ?_, ?_⟩
  · unfold baseURL
    by_cases h : region = "singapore"
    · simp [h]
    · simp only [h, if_false, iff_false]
      decide
  · intro h
    simp [baseURL, h]
  · intro bind r hr
    obtain ⟨req0, _, _, _, _, _, hcall⟩ := postGenerate_calls lib apiKey region bind r hr
    rw [hcall]
    rfl
  · intro r hr
    obtain ⟨_, _, _, hcall⟩ := getTask_calls lib apiKey region taskId r hr
    rw [hcall]
    rfl
  · intro hp hk hm hn
    rw [postGenerate_reach lib apiKey region req hp hk hm hn, relay_calls]
    rfl
  · intro ht hk hn
    rw [getTask_reach lib apiKey region taskId ht hk hn, relay_calls]
    rfl

/-- C4 at the regions "singapore" and "Singapore" (the match is exact). -/
theorem baseURL_selection_witness :
    (postGenerate offline "sk-1" "singapore" (some ⟨"a red fox", "", false, false⟩)).calls.map
        HttpRequest.url
      = ["https://dashscope-intl.aliyuncs.com/api/v1/services/aigc/multimodal-generation/generation"]
    ∧ (getTask offline "sk-1" "Singapore" "task-123").calls.map HttpRequest.url
      = ["https://dashscope.aliyuncs.com/api/v1/tasks/task-123"]
    ∧ baseURL "Singapore" = "https://dashscope.aliyuncs.com/api/v1" :=
  ⟨(baseURL_selection offline "sk-1" "singapore" ⟨"a red fox", "", false, false⟩
      "task-123").2.2.2.2.2.1 (by decide) (by decide) rfl rfl,
   (baseURL_selection offline "sk-1" "Singapore" ⟨"a red fox", "", false, false⟩
      "task-123").2.2.2.2.2.2 (by decide) (by decide) rfl,
   (baseURL_selection offline "sk-1" "Singapore" ⟨"a red fox", "", false, false⟩
      "task-123").2.1 (by decide)⟩

/-- C7: for a Submit request with a non-empty prompt and a configured API key,
every outbound call carries a body whose `input.messages[0].content[0].text`
is the prompt, whose `parameters.size` is the request's size when that is
non-empty and "1328*1328" when it is empty, and whose
`parameters.prompt_extend` and `parameters.watermark` are the request's flags;
exactly that one call is made once the payload marshals and the request is
constructed.  For the prompt "a red fox" with no size the text is "a red fox"
and the size "1328*1328". -/
theorem postGenerate_payload (lib : Lib) (apiKey region : String) (req : GenerateRequest)
    (hp : req.Prompt ≠ "") (hk : apiKey ≠ "") :
    (∀ r ∈ (postGenerate lib apiKey region (some req)).calls, ∃ doc, r.body = some doc
        ∧ promptText doc = some (Json.str req.Prompt)
        ∧ parameter "size" doc
            = some (Json.str (if req.Size = "" then "1328*1328" else req.Size))
        ∧ parameter "prompt_extend" doc = some (Json.bool req.PromptExtend)
        ∧ parameter "watermark" doc = some (Json.bool req.Watermark))
    ∧ (lib.marshalOk (dashscopeReq (setDefaults req)) = true →
        lib.newRequestOk "POST"
          (baseURL region ++ "/services/aigc/multimodal-generation/generation") = true →
        (postGenerate lib apiKey region (some req)).calls
          = [generateCall apiKey region (setDefaults req)])
    ∧ promptText (dashscopeReq (setDefaults ⟨"a red fox", "", req.PromptExtend, req.Watermark⟩))
        = some (Json.str "a red fox")
    ∧ parameter "size"
        (dashscopeReq (setDefaults ⟨"a red fox", "", req.PromptExtend, req.Watermark⟩))
        = some (Json.str "1328*1328") := by
  refine ⟨?_, ?_, rfl, rfl⟩
  · intro r hr
    obtain ⟨req0, hb, _, _, _, _, hcall⟩ :=
      postGenerate_calls lib apiKey region (some req) r hr
    cases hb
    refine ⟨dashscopeReq (setDefaults req), by rw [hcall]; rfl, ?_, ?_, ?_, ?_⟩
    · unfold setDefaults
      split <;> rfl
    · unfold setDefaults
      split <;> rfl
    · unfold setDefaults
      split <;> rfl
    · unfold setDefaults
      split <;> rfl
  · intro hm hn
    rw [postGenerate_reach lib apiKey region req hp hk hm hn, relay_calls]

/-- C7 at the prompt "a red fox" with no size: the one call made carries the default size. -/
theorem postGenerate_payload_witness :
    (postGenerate offline "sk-1" "" (some ⟨"a red fox", "", true, false⟩)).calls
      = [generateCall "sk-1" "" ⟨"a red fox", "1328*1328", true, false⟩] :=
  (postGenerate_payload offline "sk-1" "" ⟨"a red fox", "", true, false⟩
    (by decide) (by decide)).2.1 rfl rfl

/-- C8, as stated, fails.  For the non-empty task identifier "task-123\n" (a
line feed at its end) and a configured key, `http.NewRequest` rejects the URL
and QueryStatus issues no request at all, replying 500 "Failed to create
request"; the same library accepts the URL built from "task-123".  For the
task identifier "a b" the request is issued, but the URL it carries ends in
"/tasks/a%20b": the identifier does not reach the upstream unmodified. -/
theorem getTask_rejected_url_no_call :
    (getTask strict "sk-1" "" "task-123\n").calls = []
    ∧ (getTask strict "sk-1" "" "task-123\n").reply
        = ⟨500, Json.obj [("error", Json.str "Failed to create request")]⟩
    ∧ strict.newRequestOk "GET" (baseURL "" ++ "/tasks/" ++ "task-123\n") = false
    ∧ (getTask strict "sk-1" "" "task-123").calls.map HttpRequest.url
        = ["https://dashscope.aliyuncs.com/api/v1/tasks/task-123"]
    ∧ (getTask strict "sk-1" "" "a b").calls.map (HttpRequest.URL strict)
        = ["https://dashscope.aliyuncs.com/api/v1/tasks/a%20b"]
    ∧ (getTask strict "sk-1" "" "a b").calls.map (HttpRequest.URL strict)
        ≠ [baseURL "" ++ "/tasks/" ++ "a b"] :=
  ⟨rfl, rfl, rfl, rfl, rfl, by decide⟩

/-- C8, amended: for a non-empty task identifier and a configured API key,
QueryStatus builds its request with `http.NewRequest` from the method GET, the
string made of the base URL, "/tasks/" and the identifier as given, and no
body, and sets the bearer authorization header as the only header.  When
`http.NewRequest` rejects that string no request is issued and the reply is
500 "Failed to create request"; otherwise exactly one request is issued, and
the URL it carries is what `http.NewRequest` parsed from that string.  That URL
is the string itself whenever parsing leaves the string unchanged; for
"task-123" it is then the base URL followed by "/tasks/task-123". -/
theorem getTask_request (lib : Lib) (apiKey region taskId : String)
    (ht : taskId ≠ "") (hk : apiKey ≠ "") :
    (∀ r ∈ (getTask lib apiKey region taskId).calls,
        r.method = "GET"
        ∧ r.url = baseURL region ++ "/tasks/" ++ taskId
        ∧ r.body = none
        ∧ r.header = [("Authorization", "Bearer " ++ apiKey)]
        ∧ r.URL lib = lib.parseURL (baseURL region ++ "/tasks/" ++ taskId))
    ∧ (lib.newRequestOk "GET" (baseURL region ++ "/tasks/" ++ taskId) = true →
        (getTask lib apiKey region taskId).calls.length = 1)
    ∧ (lib.newRequestOk "GET" (baseURL region ++ "/tasks/" ++ taskId) = false →
        getTask lib apiKey region taskId
          = ⟨⟨500, Json.obj [("error", Json.str "Failed to create request")]⟩, []⟩)
    ∧ (lib.parseURL (baseURL region ++ "/tasks/" ++ taskId)
          = baseURL region ++ "/tasks/" ++ taskId →
        ∀ r ∈ (getTask lib apiKey region taskId).calls,
          r.URL lib = baseURL region ++ "/tasks/" ++ taskId)
    ∧ (lib.newRequestOk "GET" (baseURL region ++ "/tasks/task-123") = true →
        lib.parseURL (baseURL region ++ "/tasks/task-123")
          = baseURL region ++ "/tasks/task-123" →
        (getTask lib apiKey region "task-123").calls.map (HttpRequest.URL lib)
          = [baseURL region ++ "/tasks/task-123"]) := by
  have h123 : baseURL region ++ "/tasks/" ++ "task-123" = baseURL region ++ "/tasks/task-123" := by
    rw [String.append_assoc]
    rfl
  refine ⟨?_, ?_, ?_, ?_, ?_⟩
  · intro r hr
    rw [(getTask_calls lib apiKey region taskId r hr).2.2.2]
    exact ⟨rfl, rfl, rfl, rfl, rfl⟩
  · intro hn
    rw [getTask_reach lib apiKey region taskId ht hk hn, relay_calls]
    rfl
  · intro hn
    simp [getTask, ht, hk, hn, errorBody]
  · intro hp r hr
    rw [(getTask_calls lib apiKey region taskId r hr).2.2.2]
    exact hp
  · intro hn hp
    rw [← h123] at hn hp
    rw [getTask_reach lib apiKey region "task-123" (by decide) hk hn, relay_calls]
    show [lib.parseURL (baseURL region ++ "/tasks/" ++ "task-123")] = _
    rw [hp, h123]

/-- The amended C8 at the task identifier "task-123" with the region unset
(the URL carried is the string as written), at "a b" (one request, carrying
the re-encoded URL) and at "task-123\n" (rejected, no request). -/
theorem getTask_request_witness :
    (getTask strict "sk-1" "" "task-123").calls.map (HttpRequest.URL strict)
      = ["https://dashscope.aliyuncs.com/api/v1/tasks/task-123"]
    ∧ (getTask strict "sk-1" "" "a b").calls.length = 1
    ∧ getTask strict "sk-1" "" "task-123\n"
      = ⟨⟨500, Json.obj [("error", Json.str "Failed to create request")]⟩, []⟩ :=
  ⟨(getTask_request strict "sk-1" "" "task-123" (by decide) (by decide)).2.2.2.2 rfl rfl,
   (getTask_request strict "sk-1" "" "a b" (by decide) (by decide)).2.1 rfl,
   (getTask_request strict "sk-1" "" "task-123\n" (by decide) (by decide)).2.2.1 rfl⟩

/-! ## Result mapping -/

/-- C5: when the upstream answers the call an operation made with a status
`s` of at least 400 and a body that parses to `b`, the operation replies with
exactly status `s` and body `b`; this holds for Submit and for QueryStatus.
In particular status 429 with the body whose single member "code" is
"Throttling" is sent back as status 429 with that body. -/
theorem upstream_error_relayed (lib : Lib) (apiKey region : String)
    (bind : Option GenerateRequest) (taskId : String)
    (s : Int) (raw : String) (b : Json)
    (hu : lib.unmarshal raw = some b) (hs : s ≥ 400) :
    (∀ r ∈ (postGenerate lib apiKey region bind).calls,
        lib.clientDo r = some ⟨s, some raw⟩ →
        (postGenerate lib apiKey region bind).reply = ⟨s, b⟩)
    ∧ (∀ r ∈ (getTask lib apiKey region taskId).calls,
        lib.clientDo r = some ⟨s, some raw⟩ →
        (getTask lib apiKey region taskId).reply = ⟨s, b⟩)
    ∧ (postGenerate (answering 429 "\x7b\"code\":\"Throttling\"\x7d"
          (Json.obj [("code", Json.str "Throttling")])) "sk-1" ""
          (some ⟨"a red fox", "", false, false⟩)).reply
        = ⟨429, Json.obj [("code", Json.str "Throttling")]⟩
    ∧ (getTask (answering 429 "\x7b\"code\":\"Throttling\"\x7d"
          (Json.obj [("code", Json.str "Throttling")])) "sk-1" "" "task-123").reply
        = ⟨429, Json.obj [("code", Json.str "Throttling")]⟩ := by
  refine ⟨?_, ?_, rfl, rfl⟩
  · intro r hr hd
    rw [postGenerate_of_call lib apiKey region bind r hr, relay_parsed lib r s raw b hd hu]
    simp [hs]
  · intro r hr hd
    rw [getTask_of_call lib apiKey region taskId r hr, relay_parsed lib r s raw b hd hu]
    simp [hs]

/-- C5 at an upstream answering 429 with the body whose member "code" is
"Throttling", region "singapore". -/
theorem upstream_error_relayed_witness :
    (postGenerate (answering 429 "\x7b\"code\":\"Throttling\"\x7d"
        (Json.obj [("code", Json.str "Throttling")])) "sk-1" "singapore"
        (some ⟨"a red fox", "", false, false⟩)).reply
      = ⟨429, Json.obj [("code", Json.str "Throttling")]⟩
    ∧ (getTask (answering 429 "\x7b\"code\":\"Throttling\"\x7d"
        (Json.obj [("code", Json.str "Throttling")])) "sk-1" "singapore" "task-123").reply
      = ⟨429, Json.obj [("code", Json.str "Throttling")]⟩ :=
  ⟨(upstream_error_relayed
      (answering 429 "\x7b\"code\":\"Throttling\"\x7d"
        (Json.obj [("code", Json.str "Throttling")]))
      "sk-1" "singapore" (some ⟨"a red fox", "", false, false⟩) "task-123"
      429 "\x7b\"code\":\"Throttling\"\x7d" (Json.obj [("code", Json.str "Throttling")])
      rfl (by decide)).1
      (generateCall "sk-1" "singapore" ⟨"a red fox", "1328*1328", false, false⟩)
      (List.mem_singleton_self _) rfl,
   (upstream_error_relayed
      (answering 429 "\x7b\"code\":\"Throttling\"\x7d"
        (Json.obj [("code", Json.str "Throttling")]))
      "sk-1" "singapore" (some ⟨"a red fox", "", false, false⟩) "task-123"
      429 "\x7b\"code\":\"Throttling\"\x7d" (Json.obj [("code", Json.str "Throttling")])
      rfl (by decide)).2.1
      (taskCall "sk-1" "singapore" "task-123") (List.mem_singleton_self _) rfl⟩

/-- C6, as stated, fails: an upstream answer with status 201 and a body that
parses is sent back by both operations with status 200, not 201 (the call was
made and answered 201). -/
theorem success_status_not_relayed :
    (postGenerate (answering 201 "\x7b\x7d" (Json.obj [])) "sk-1" ""
        (some ⟨"a red fox", "", false, false⟩)).reply.status = 200
    ∧ (postGenerate (answering 201 "\x7b\x7d" (Json.obj [])) "sk-1" ""
        (some ⟨"a red fox", "", false, false⟩)).reply.status ≠ 201
    ∧ ((postGenerate (answering 201 "\x7b\x7d" (Json.obj [])) "sk-1" ""
        (some ⟨"a red fox", "", false, false⟩)).calls.map
          (fun r => ((answering 201 "\x7b\x7d" (Json.obj [])).clientDo r).map
            HttpResponse.StatusCode)) = [some 201]
    ∧ (getTask (answering 201 "\x7b\x7d" (Json.obj [])) "sk-1" "" "task-123").reply.status = 200
    ∧ (getTask (answering 201 "\x7b\x7d" (Json.obj [])) "sk-1" "" "task-123").reply.status ≠ 201
    ∧ ((getTask (answering 201 "\x7b\x7d" (Json.obj [])) "sk-1" "" "task-123").calls.map
          (fun r => ((answering 201 "\x7b\x7d" (Json.obj [])).clientDo r).map
            HttpResponse.StatusCode)) = [some 201] := by
  decide

/-- C6, amended: when the upstream answers the call an operation made without
transport failure and with a body that parses to `b`, both operations send
back the body `b` unchanged, with the upstream status code when that is at
least 400 and with status 200 for every upstream status code below 400. -/
theorem upstream_reply_mapping (lib : Lib) (apiKey region : String)
    (bind : Option GenerateRequest) (taskId : String)
    (s : Int) (raw : String) (b : Json)
    (hu : lib.unmarshal raw = some b) :
    (∀ r ∈ (postGenerate lib apiKey region bind).calls,
        lib.clientDo r = some ⟨s, some raw⟩ →
        (postGenerate lib apiKey region bind).reply.body = b
        ∧ (s ≥ 400 → (postGenerate lib apiKey region bind).reply.status = s)
        ∧ (s < 400 → (postGenerate lib apiKey region bind).reply.status = 200))
    ∧ (∀ r ∈ (getTask lib apiKey region taskId).calls,
        lib.clientDo r = some ⟨s, some raw⟩ →
        (getTask lib apiKey region taskId).reply.body = b
        ∧ (s ≥ 400 → (getTask lib apiKey region taskId).reply.status = s)
        ∧ (s < 400 → (getTask lib apiKey region taskId).reply.status = 200)) := by
  have key : ∀ r, lib.clientDo r = some ⟨s, some raw⟩ →
      (relay lib r).reply.body = b
      ∧ (s ≥ 400 → (relay lib r).reply.status = s)
      ∧ (s < 400 → (relay lib r).reply.status = 200) := by
    intro r hd
    rw [relay_parsed lib r s raw b hd hu]
    refine ⟨rfl, ?_, ?_⟩
    · intro hs
      simp [hs]
    · intro hs
      have hlt : ¬ s ≥ 400 := not_le.mpr hs
      simp [hlt]
  constructor
  · intro r hr hd
    rw [postGenerate_of_call lib apiKey region bind r hr]
    exact key r hd
  · intro r hr hd
    rw [getTask_of_call lib apiKey region taskId r hr]
    exact key r hd

/-- The amended C6 at upstream status 201 (sent back as 200) and 503 (sent
back as 503). -/
theorem upstream_reply_mapping_witness :
    ((postGenerate (answering 201 "\x7b\x7d" (Json.obj [])) "sk-1" ""
        (some ⟨"a red fox", "", false, false⟩)).reply.status = 200
      ∧ (getTask (answering 201 "\x7b\x7d" (Json.obj [])) "sk-1" "" "task-123").reply.status = 200)
    ∧ ((postGenerate (answering 503 "\x7b\x7d" (Json.obj [])) "sk-1" ""
        (some ⟨"a red fox", "", false, false⟩)).reply.status = 503
      ∧ (getTask (answering 503 "\x7b\x7d" (Json.obj [])) "sk-1" "" "task-123").reply.status = 503) :=
  ⟨⟨((upstream_reply_mapping (answering 201 "\x7b\x7d" (Json.obj [])) "sk-1" ""
        (some ⟨"a red fox", "", false, false⟩) "task-123" 201 "\x7b\x7d" (Json.obj []) rfl).1
        (generateCall "sk-1" "" ⟨"a red fox", "1328*1328", false, false⟩)
        (List.mem_singleton_self _) rfl).2.2 (by decide),
     ((upstream_reply_mapping (answering 201 "\x7b\x7d" (Json.obj [])) "sk-1" ""
        (some ⟨"a red fox", "", false, false⟩) "task-123" 201 "\x7b\x7d" (Json.obj []) rfl).2
        (taskCall "sk-1" "" "task-123") (List.mem_singleton_self _) rfl).2.2 (by decide)⟩,
   ⟨((upstream_reply_mapping (answering 503 "\x7b\x7d" (Json.obj [])) "sk-1" ""
        (some ⟨"a red fox", "", false, false⟩) "task-123" 503 "\x7b\x7d" (Json.obj []) rfl).1
        (generateCall "sk-1" "" ⟨"a red fox", "1328*1328", false, false⟩)
        (List.mem_singleton_self _) rfl).2.1 (by decide),
     ((upstream_reply_mapping (answering 503 "\x7b\x7d" (Json.obj [])) "sk-1" ""
        (some ⟨"a red fox", "", false, false⟩) "task-123" 503 "\x7b\x7d" (Json.obj []) rfl).2
        (taskCall "sk-1" "" "task-123") (List.mem_singleton_self _) rfl).2.1 (by decide)⟩⟩

/-- C9, as stated, fails: the upstream body `null` is not a JSON object, yet
`json.Unmarshal` accepts it (the map stays nil), so QueryStatus answers an
upstream 404 with status 404 and the body `null`, and Submit answers an
upstream 200 with status 200 and the body `null`: no status 500 and no "error"
member. -/
theorem null_body_not_500 :
    (getTask (answering 404 "null" Json.null) "sk-1" "" "task-123").reply.status = 404
    ∧ (getTask (answering 404 "null" Json.null) "sk-1" "" "task-123").reply.status ≠ 500
    ∧ (getTask (answering 404 "null" Json.null) "sk-1" "" "task-123").reply.body = Json.null
    ∧ ((getTask (answering 404 "null" Json.null) "sk-1" "" "task-123").reply.body).field "error"
        = none
    ∧ (postGenerate (answering 200 "null" Json.null) "sk-1" ""
        (some ⟨"a red fox", "", false, false⟩)).reply.status = 200
    ∧ (postGenerate (answering 200 "null" Json.null) "sk-1" ""
        (some ⟨"a red fox", "", false, false⟩)).reply.status ≠ 500
    ∧ (postGenerate (answering 200 "null" Json.null) "sk-1" ""
        (some ⟨"a red fox", "", false, false⟩)).reply.body = Json.null :=
  ⟨rfl, by decide, rfl, rfl, rfl, by decide, rfl⟩

/-- C9, amended: in both operations, when the call made fails at transport
level, when the body of the answer cannot be read, or when `json.Unmarshal` of
the body returns an error, the reply is status 500 with an object carrying an
"error" member, whatever the upstream status.  When `json.Unmarshal` returns
no error (which includes the body `null`) the document it left is sent back,
with the upstream status when that is at least 400 and with 200 otherwise.
Every reply to a run that made a call is one of these two kinds. -/
theorem upstream_failure_500 (lib : Lib) (apiKey region : String)
    (bind : Option GenerateRequest) (taskId : String) :
    (∀ r ∈ (postGenerate lib apiKey region bind).calls,
      (lib.clientDo r = none → (postGenerate lib apiKey region bind).reply
          = ⟨500, Json.obj [("error", Json.str "Failed to call DashScope API")]⟩)
      ∧ (∀ s raw, lib.clientDo r = some ⟨s, some raw⟩ → lib.unmarshal raw = none →
          (postGenerate lib apiKey region bind).reply
            = ⟨500, Json.obj [("error", Json.str "Failed to parse response")]⟩)
      ∧ (∀ s, lib.clientDo r = some ⟨s, none⟩ → (postGenerate lib apiKey region bind).reply
          = ⟨500, Json.obj [("error", Json.str "Failed to read response")]⟩)
      ∧ (∀ s raw b, lib.clientDo r = some ⟨s, some raw⟩ → lib.unmarshal raw = some b →
          (postGenerate lib apiKey region bind).reply = ⟨if s ≥ 400 then s else 200, b⟩)
      ∧ ((∃ msg, (postGenerate lib apiKey region bind).reply
            = ⟨500, Json.obj [("error", Json.str msg)]⟩)
        ∨ (∃ s raw b, lib.clientDo r = some ⟨s, some raw⟩ ∧ lib.unmarshal raw = some b
            ∧ (postGenerate lib apiKey region bind).reply = ⟨if s ≥ 400 then s else 200, b⟩)))
    ∧ (∀ r ∈ (getTask lib apiKey region taskId).calls,
      (lib.clientDo r = none → (getTask lib apiKey region taskId).reply
          = ⟨500, Json.obj [("error", Json.str "Failed to call DashScope API")]⟩)
      ∧ (∀ s raw, lib.clientDo r = some ⟨s, some raw⟩ → lib.unmarshal raw = none →
          (getTask lib apiKey region taskId).reply
            = ⟨500, Json.obj [("error", Json.str "Failed to parse response")]⟩)
      ∧ (∀ s, lib.clientDo r = some ⟨s, none⟩ → (getTask lib apiKey region taskId).reply
          = ⟨500, Json.obj [("error", Json.str "Failed to read response")]⟩)
      ∧ (∀ s raw b, lib.clientDo r = some ⟨s, some raw⟩ → lib.unmarshal raw = some b →
          (getTask lib apiKey region taskId).reply = ⟨if s ≥ 400 then s else 200, b⟩)
      ∧ ((∃ msg, (getTask lib apiKey region taskId).reply
            = ⟨500, Json.obj [("error", Json.str msg)]⟩)
        ∨ (∃ s raw b, lib.clientDo r = some ⟨s, some raw⟩ ∧ lib.unmarshal raw = some b
            ∧ (getTask lib apiKey region taskId).reply = ⟨if s ≥ 400 then s else 200, b⟩))) := by
  have key : ∀ r,
      (lib.clientDo r = none → (relay lib r).reply
          = ⟨500, Json.obj [("error", Json.str "Failed to call DashScope API")]⟩)
      ∧ (∀ s raw, lib.clientDo r = some ⟨s, some raw⟩ → lib.unmarshal raw = none →
          (relay lib r).reply = ⟨500, Json.obj [("error", Json.str "Failed to parse response")]⟩)
      ∧ (∀ s, lib.clientDo r = some ⟨s, none⟩ → (relay lib r).reply
          = ⟨500, Json.obj [("error", Json.str "Failed to read response")]⟩)
      ∧ (∀ s raw b, lib.clientDo r = some ⟨s, some raw⟩ → lib.unmarshal raw = some b →
          (relay lib r).reply = ⟨if s ≥ 400 then s else 200, b⟩)
      ∧ ((∃ msg, (relay lib r).reply = ⟨500, Json.obj [("error", Json.str msg)]⟩)
        ∨ (∃ s raw b, lib.clientDo r = some ⟨s, some raw⟩ ∧ lib.unmarshal raw = some b
            ∧ (relay lib r).reply = ⟨if s ≥ 400 then s else 200, b⟩)) := by
    intro r
    refine ⟨relay_transport lib r, relay_unparsed lib r, relay_unread lib r,
      relay_parsed lib r, ?_⟩
    rcases relay_cases lib r with ⟨msg, h⟩ | ⟨s, raw, b, hd, hu, h⟩
    · exact Or.inl ⟨msg, h⟩
    · exact Or.inr ⟨s, raw, b, hd, hu, h⟩
  constructor
  · intro r hr
    rw [postGenerate_of_call lib apiKey region bind r hr]
    exact key r
  · intro r hr
    rw [getTask_of_call lib apiKey region taskId r hr]
    exact key r

/-- The amended C9 at an upstream that cannot be reached, at one whose body
`json.Unmarshal` rejects (answering 200 to Submit and 404 to QueryStatus), and
at one answering 404 with the body `null`. -/
theorem upstream_failure_500_witness :
    ((postGenerate offline "sk-1" "" (some ⟨"a red fox", "", false, false⟩)).reply
        = ⟨500, Json.obj [("error", Json.str "Failed to call DashScope API")]⟩
      ∧ (getTask offline "sk-1" "" "task-123").reply
        = ⟨500, Json.obj [("error", Json.str "Failed to call DashScope API")]⟩)
    ∧ ((postGenerate (garbled 200 "<html>") "sk-1" "" (some ⟨"a red fox", "", false, false⟩)).reply
        = ⟨500, Json.obj [("error", Json.str "Failed to parse response")]⟩
      ∧ (getTask (garbled 404 "<html>") "sk-1" "" "task-123").reply
        = ⟨500, Json.obj [("error", Json.str "Failed to parse response")]⟩)
    ∧ (getTask (answering 404 "null" Json.null) "sk-1" "" "task-123").reply
        = ⟨404, Json.null⟩ :=
  ⟨⟨((upstream_failure_500 offline "sk-1" "" (some ⟨"a red fox", "", false, false⟩)
        "task-123").1 (generateCall "sk-1" "" ⟨"a red fox", "1328*1328", false, false⟩)
        (List.mem_singleton_self _)).1 rfl,
     ((upstream_failure_500 offline "sk-1" "" (some ⟨"a red fox", "", false, false⟩)
        "task-123").2 (taskCall "sk-1" "" "task-123") (List.mem_singleton_self _)).1 rfl⟩,
   ⟨((upstream_failure_500 (garbled 200 "<html>") "sk-1" ""
        (some ⟨"a red fox", "", false, false⟩) "task-123").1
        (generateCall "sk-1" "" ⟨"a red fox", "1328*1328", false, false⟩)
        (List.mem_singleton_self _)).2.1 200 "<html>" rfl rfl,
    ((upstream_failure_500 (garbled 404 "<html>") "sk-1" ""
        (some ⟨"a red fox", "", false, false⟩) "task-123").2
        (taskCall "sk-1" "" "task-123") (List.mem_singleton_self _)).2.1 404 "<html>" rfl rfl⟩,
   ((upstream_failure_500 (answering 404 "null" Json.null) "sk-1" ""
        (some ⟨"a red fox", "", false, false⟩) "task-123").2
        (taskCall "sk-1" "" "task-123") (List.mem_singleton_self _)).2.2.2.1
        404 "null" Json.null rfl rfl⟩

end RegisterQwenEndpoints
